import Mathlib

/-!
Verification of the adsorption-energy workflow assembler
(`src/atomate2/vasp/flows/adsorption.py`, class `AdsorptionMaker`).

The assembler is pure graph construction: it builds a list of Job nodes
whose inputs are forward references (futures) to other jobs' outputs, plus
one diagnostic file write.  We embed it shallowly: a `Job` becomes a
`JobSpec` recording its constructor and its input references, and
`AdsorptionMaker.make` becomes a Lean function returning
`Except AssemblyError MakeResult`.  A Python `AttributeError` raised by
calling `.make` on a `None` maker field is modelled by the `.error` branch,
which also records the Job objects that had already been created when the
exception fired (mirroring that in Python those objects exist before the
raise).
-/

namespace Adsorption

/-- A configured maker object (e.g. `MolRelaxMaker()`).  Only its identity
matters to the assembler, which treats makers as opaque job factories; the
`makerName` field keeps distinct instances distinguishable. -/
structure VaspMaker where
  makerName : String
deriving DecidableEq, Repr

/-- A forward reference (future) to a structure/energy value, as threaded by
the assembler.  `boxedMolecule` is the result of
`molecule.get_boxed_structure(10, 10, 10)`; `moleculeArg` and `bulkArg` are
the raw `molecule` and `structure` arguments of `make`; `outStructure j`,
`outEnergy j` and `outRef j` are `jobs[j].output.structure`,
`jobs[j].output.output.energy` and `jobs[j].output`, where `j` is the index
of the producing job in the assembled job list. -/
inductive OutputRef where
  | boxedMolecule
  | moleculeArg
  | bulkArg
  | outStructure (j : Nat)
  | outEnergy (j : Nat)
  | outRef (j : Nat)
deriving DecidableEq, Repr

/-- A previous-directory handle passed to a maker: Python `None`, a
caller-supplied path (`prev_dir_mol` / `prev_dir_bulk`), or a reference to
job `j`'s output directory (`jobs[j].output.dir_name`). -/
inductive DirRef where
  | pynone
  | path (p : String)
  | jobDir (j : Nat)
deriving DecidableEq, Repr

/-- The geometry parameters forwarded verbatim to `generate_slab` and
`generate_adslabs` (keyword order of the source call site). -/
structure GeomParams where
  min_slab_size : ℚ
  surface_idx : Int × Int × Int
  min_vacuum_size : ℚ
  min_lw : ℚ
deriving DecidableEq, Repr

/-- One Job node of the assembled flow, recording which factory created it
and the input references it consumes.

* `makerJob m label s d` — `m.make(s, prev_dir=d)` followed by
  `append_name(label)`;
* `slabGenJob b p` — `generate_slab(bulk_structure=b, **p)`;
* `adslabsGenJob b mol p` — `generate_adslabs(bulk_structure=b,
  molecule_structure=mol, **p)`;
* `runAdslabsJob ads rm sm` — `run_adslabs_job(adslab_structures=ads,
  relax_maker=rm, static_maker=sm)`;
* `adsCalcJob ads data me se` — `adsorption_calculations(adslab_structures=ads,
  adslabs_data=data, molecule_dft_energy=me, slab_dft_energy=se)`. -/
inductive JobSpec where
  | makerJob (maker : VaspMaker) (label : String)
      (structureInput : OutputRef) (prev_dir : DirRef)
  | slabGenJob (bulk_structure : OutputRef) (p : GeomParams)
  | adslabsGenJob (bulk_structure : OutputRef) (molecule_structure : OutputRef)
      (p : GeomParams)
  | runAdslabsJob (adslab_structures : OutputRef)
      (relax_maker static_maker : Option VaspMaker)
  | adsCalcJob (adslab_structures : OutputRef) (adslabs_data : OutputRef)
      (molecule_dft_energy slab_dft_energy : OutputRef)
deriving DecidableEq, Repr

/-- An observable side effect of assembly (beyond building the in-memory
job list). -/
inductive Effect where
  | fileWrite (filename : String)
deriving DecidableEq, Repr

/-- A Python exception escaping `make`.  `attributeError attr jobsCreated`
models the `AttributeError` raised by evaluating `self.<attr>.make(...)`
when the field `attr` is `None`; `jobsCreated` is the list of Job objects
that had already been created and appended when the exception fired. -/
inductive AssemblyError where
  | attributeError (attr : String) (jobsCreated : List JobSpec)
deriving DecidableEq, Repr

/-- The jobflow `Flow` object returned by `make`: the job list in creation
order, the designated terminal output reference, and the flow name. -/
structure FlowSpec where
  jobs : List JobSpec
  output : OutputRef
  name : String
deriving DecidableEq, Repr

/-- The full result of a successful assembly: the returned `Flow`, the side
effects performed, and the keys inserted into the `joblog` dict in order. -/
structure MakeResult where
  flow : FlowSpec
  effects : List Effect
  joblogKeys : List String
deriving DecidableEq, Repr

/-- The `AdsorptionMaker` dataclass: five optional maker fields, each with a
non-`None` default instance (`field(default_factory=...)`). -/
structure AdsorptionMaker where
  name : String := "adsorption workflow"
  mol_relax_maker : Option VaspMaker := some ⟨"MolRelaxMaker"⟩
  mol_static_maker : Option VaspMaker := some ⟨"MolStaticMaker"⟩
  bulk_relax_maker : Option VaspMaker := some ⟨"BulkRelaxMaker"⟩
  slab_relax_maker : Option VaspMaker := some ⟨"SlabRelaxMaker"⟩
  slab_static_maker : Option VaspMaker := some ⟨"SlabStaticMaker"⟩
deriving DecidableEq, Repr

/-- The arguments of `AdsorptionMaker.make` other than the two opaque
geometry objects `molecule` and `structure` (represented symbolically by
`OutputRef.moleculeArg` and `OutputRef.bulkArg`), with the source's
defaults. -/
structure MakeArgs where
  min_vacuum : ℚ := 20
  min_slab_size : ℚ := 10
  min_lw : ℚ := 10
  surface_idx : Int × Int × Int := (0, 0, 1)
  prev_dir_mol : Option String := none
  prev_dir_bulk : Option String := none
deriving DecidableEq, Repr

/-- The geometry-parameter record built from `make`'s arguments, as passed
to both `generate_slab` and `generate_adslabs`. -/
def geomOf (a : MakeArgs) : GeomParams :=
  ⟨a.min_slab_size, a.surface_idx, a.min_vacuum, a.min_lw⟩

/-- Shallow embedding of `AdsorptionMaker.make`.  Each step mirrors the
source line by line; job output references use the producing job's index in
the job list (jobs are only ever appended).  The commented-out source lines
`# prev_dir = mol_optimize_job.output.dir_name` and
`# else: # prev_dir = prev_dir_mol` are dead in the source and therefore
absent here: every maker call receives `prev_dir=None`. -/
def AdsorptionMaker.make (self : AdsorptionMaker) (args : MakeArgs) :
    Except AssemblyError MakeResult :=
  -- molecule_structure = molecule.get_boxed_structure(10, 10, 10)
  let molecule_structure : OutputRef := OutputRef.boxedMolecule
  -- jobs: list[Job] = [];  joblog: dict = defaultdict(dict)
  -- if self.mol_relax_maker: ... append molecule relaxation job
  let (jobs1, log1) :=
    match self.mol_relax_maker with
    | some m =>
        ([JobSpec.makerJob m "molecule relaxation job" molecule_structure
            DirRef.pynone],
         ["job1: molecule relaxation job"])
    | none => ([], [])
  -- mol_static_job = self.mol_static_maker.make(molecule_structure, prev_dir=None)
  match self.mol_static_maker with
  | none => Except.error (AssemblyError.attributeError "mol_static_maker" jobs1)
  | some molStatic =>
    let molStaticIdx := jobs1.length
    let jobs2 := jobs1 ++
      [JobSpec.makerJob molStatic "molecule static job" molecule_structure
        DirRef.pynone]
    -- molecule_dft_energy = mol_static_job.output.output.energy
    let molecule_dft_energy := OutputRef.outEnergy molStaticIdx
    let log2 := log1 ++ ["job2: molecule static job"]
    -- if self.bulk_relax_maker: ... else: optimized_bulk = structure
    let (jobs3, log3, optimized_bulk) :=
      match self.bulk_relax_maker with
      | some m =>
          (jobs2 ++
            [JobSpec.makerJob m "bulk relaxation job" OutputRef.bulkArg
              DirRef.pynone],
           log2 ++ ["job3: bulk relaxation job"],
           OutputRef.outStructure jobs2.length)
      | none => (jobs2, log2, OutputRef.bulkArg)
    -- generate_slab_structure = generate_slab(bulk_structure=optimized_bulk, ...)
    let p := geomOf args
    let genSlabIdx := jobs3.length
    let jobs4 := jobs3 ++ [JobSpec.slabGenJob optimized_bulk p]
    let slab_structure := OutputRef.outRef genSlabIdx
    let log4 := log3 ++ ["job4: generate slab structure"]
    -- generate_adslabs_structures = generate_adslabs(bulk_structure=optimized_bulk,
    --   molecule_structure=molecule, ...)   [note: the raw molecule argument]
    let genAdsIdx := jobs4.length
    let jobs5 := jobs4 ++
      [JobSpec.adslabsGenJob optimized_bulk OutputRef.moleculeArg p]
    let adslab_structures := OutputRef.outRef genAdsIdx
    let log5 := log4 ++ ["job5: generate adslabs structures"]
    -- slab_optimize_job = self.slab_relax_maker.make(slab_structure, prev_dir=None)
    match self.slab_relax_maker with
    | none =>
        Except.error (AssemblyError.attributeError "slab_relax_maker" jobs5)
    | some slabRelax =>
      let slabRelaxIdx := jobs5.length
      let jobs6 := jobs5 ++
        [JobSpec.makerJob slabRelax "slab relaxation job" slab_structure
          DirRef.pynone]
      let optimized_slab := OutputRef.outStructure slabRelaxIdx
      let log6 := log5 ++ ["job6: slab relaxation job"]
      -- slab_static_job = self.slab_static_maker.make(optimized_slab, prev_dir=None)
      match self.slab_static_maker with
      | none =>
          Except.error (AssemblyError.attributeError "slab_static_maker" jobs6)
      | some slabStatic =>
        let slabStaticIdx := jobs6.length
        let jobs7 := jobs6 ++
          [JobSpec.makerJob slabStatic "slab static job" optimized_slab
            DirRef.pynone]
        let slab_dft_energy := OutputRef.outEnergy slabStaticIdx
        let log7 := log6 ++ ["job7: slab static job"]
        -- run_ads_calculation = run_adslabs_job(adslab_structures=...,
        --   relax_maker=self.slab_relax_maker, static_maker=self.slab_static_maker)
        let runIdx := jobs7.length
        let jobs8 := jobs7 ++
          [JobSpec.runAdslabsJob adslab_structures self.slab_relax_maker
            self.slab_static_maker]
        let ads_outputs := OutputRef.outRef runIdx
        let log8 := log7 ++ ["job8: run adsorption calculations"]
        -- adsorption_calc = adsorption_calculations(...)
        let calcIdx := jobs8.length
        let jobs9 := jobs8 ++
          [JobSpec.adsCalcJob adslab_structures ads_outputs
            molecule_dft_energy slab_dft_energy]
        let log9 := log8 ++ ["job9: adsorption calculations"]
        -- with open("joblog.json", "w") as f: json.dump(joblog, f, indent=4)
        -- return Flow(jobs, output=adsorption_calc.output, name=self.name)
        Except.ok
          { flow :=
              { jobs := jobs9
                output := OutputRef.outRef calcIdx
                name := self.name }
            effects := [Effect.fileWrite "joblog.json"]
            joblogKeys := log9 }

/-- Whether assembly returned a `Flow` (rather than raising). -/
def assemblySucceeds : Except AssemblyError MakeResult → Bool
  | Except.ok _ => true
  | Except.error _ => false

/-- Number of jobs in the returned `Flow`, when assembly succeeded. -/
def flowLength : Except AssemblyError MakeResult → Option Nat
  | Except.ok r => some r.flow.jobs.length
  | Except.error _ => none

/-- Side effects of assembly, when it succeeded. -/
def effectsOf : Except AssemblyError MakeResult → Option (List Effect)
  | Except.ok r => some r.effects
  | Except.error _ => none

/-- Number of Job objects already created when the assembly exception was
raised, when assembly failed. -/
def errorJobsCount : Except AssemblyError MakeResult → Option Nat
  | Except.error (AssemblyError.attributeError _ js) => some js.length
  | Except.ok _ => none

/-- The `(structure input, prev_dir)` pairs of the maker-produced jobs
carrying label `lbl`, in job order. -/
def makerJobEntries (l : List JobSpec) (lbl : String) : List (OutputRef × DirRef) :=
  l.filterMap fun j =>
    match j with
    | JobSpec.makerJob _ lbl2 s d => if lbl2 = lbl then some (s, d) else none
    | _ => none

/-- `makerJobEntries` of the returned flow's jobs, when assembly succeeded. -/
def makerJobEntriesOf (r : Except AssemblyError MakeResult) (lbl : String) :
    Option (List (OutputRef × DirRef)) :=
  match r with
  | Except.ok res => some (makerJobEntries res.flow.jobs lbl)
  | Except.error _ => none

/-- The `(bulk input, geometry params)` pairs of the `generate_slab` jobs,
in job order. -/
def slabGenEntries (l : List JobSpec) : List (OutputRef × GeomParams) :=
  l.filterMap fun j =>
    match j with
    | JobSpec.slabGenJob b p => some (b, p)
    | _ => none

/-- `slabGenEntries` of the returned flow's jobs, when assembly succeeded. -/
def slabGenEntriesOf (r : Except AssemblyError MakeResult) :
    Option (List (OutputRef × GeomParams)) :=
  match r with
  | Except.ok res => some (slabGenEntries res.flow.jobs)
  | Except.error _ => none

/-- The `(bulk input, molecule input, geometry params)` triples of the
`generate_adslabs` jobs, in job order. -/
def adslabsGenEntries (l : List JobSpec) :
    List (OutputRef × OutputRef × GeomParams) :=
  l.filterMap fun j =>
    match j with
    | JobSpec.adslabsGenJob b m p => some (b, m, p)
    | _ => none

/-- `adslabsGenEntries` of the returned flow's jobs, when assembly
succeeded. -/
def adslabsGenEntriesOf (r : Except AssemblyError MakeResult) :
    Option (List (OutputRef × OutputRef × GeomParams)) :=
  match r with
  | Except.ok res => some (adslabsGenEntries res.flow.jobs)
  | Except.error _ => none

/-- Modelled from the spec: the body of the terminal
`adsorption_calculations` job.  The function itself lives in
`atomate2.vasp.jobs.adsorption`, which is not part of this repository
snapshot (only its caller in the flow module is), so it is modelled from
the spec's words: per configuration index `i`,
`adsorption_energy[i] = static_energy_of_adslab[i] -
(slab_dft_energy + molecule_dft_energy)`; the four co-indexed sequences
must have equal length (a mismatch is a fatal contract violation); an empty
candidate collection yields an empty result rather than failing. -/
def adsorption_calculations {α : Type} (adslab_structures : List α)
    (static_energies : List ℚ) (molecule_dft_energy slab_dft_energy : ℚ) :
    Except String (List ℚ) :=
  if static_energies.length = adslab_structures.length then
    Except.ok
      (static_energies.map fun e =>
        e - (slab_dft_energy + molecule_dft_energy))
  else
    Except.error "contract violation: misaligned co-indexed sequences"

/-- The adsorption energy computed for configuration index `i`, when the
terminal calculation succeeded and `i` is in range. -/
def adsEnergyAt (r : Except String (List ℚ)) (i : Nat) : Option ℚ :=
  match r with
  | Except.ok l => l.get? i
  | Except.error _ => none

/-- Claim C1 (amended): if `slab_relax_maker` is `None`, `make` raises
during assembly (an `AttributeError` from evaluating
`self.slab_relax_maker.make(...)`) and never returns a Flow; however, when
the molecule and bulk makers are present, the exception fires only after
five Jobs (molecule relaxation, molecule static, bulk relaxation, slab
generation, adslab generation) have already been created — not before any
Job is created. -/
theorem C1_slab_relax_missing_never_returns_flow :
    (∀ (nm : String) (mr ms br ss : Option VaspMaker) (args : MakeArgs),
      assemblySucceeds ((AdsorptionMaker.mk nm mr ms br none ss).make args)
        = false) ∧
    (∀ (nm : String) (a b c : VaspMaker) (ss : Option VaspMaker)
        (args : MakeArgs),
      (AdsorptionMaker.mk nm (some a) (some b) (some c) none ss).make args =
        Except.error (AssemblyError.attributeError "slab_relax_maker"
          [JobSpec.makerJob a "molecule relaxation job"
             OutputRef.boxedMolecule DirRef.pynone,
           JobSpec.makerJob b "molecule static job"
             OutputRef.boxedMolecule DirRef.pynone,
           JobSpec.makerJob c "bulk relaxation job"
             OutputRef.bulkArg DirRef.pynone,
           JobSpec.slabGenJob (OutputRef.outStructure 2) (geomOf args),
           JobSpec.adslabsGenJob (OutputRef.outStructure 2)
             OutputRef.moleculeArg (geomOf args)])) := by
  constructor
  · intro nm mr ms br ss args
    cases mr <;> cases ms <;> cases br <;> rfl
  · intro nm a b c ss args
    rfl

/-- Claim C1 counterexample: with `slab_relax_maker = None` and every other
maker left at its default, assembly does fail (no Flow is returned), but
five Job objects have already been created when the exception is raised —
refuting the claim that the error occurs before any Job is created. -/
theorem C1_counterexample_jobs_created_before_raise :
    errorJobsCount (({ slab_relax_maker := none } : AdsorptionMaker).make {})
      = some 5 ∧
    assemblySucceeds (({ slab_relax_maker := none } : AdsorptionMaker).make {})
      = false ∧
    (5 : Nat) ≠ 0 := by
  decide

/-- Claim C2 (code bug, evaluated at the failing input): with all makers at
their defaults (so `mol_relax_maker` is configured), the molecule
relaxation job is job 0, yet the molecule static job consumes the boxed
(unrelaxed) molecule structure with `prev_dir=None` — not the relaxation
job's output structure `outStructure 0` nor its output directory
`jobDir 0`. -/
theorem C2_mol_static_ignores_relax_output :
    makerJobEntriesOf (({} : AdsorptionMaker).make {})
        "molecule relaxation job"
      = some [(OutputRef.boxedMolecule, DirRef.pynone)] ∧
    makerJobEntriesOf (({} : AdsorptionMaker).make {}) "molecule static job"
      = some [(OutputRef.boxedMolecule, DirRef.pynone)] ∧
    OutputRef.boxedMolecule ≠ OutputRef.outStructure 0 ∧
    DirRef.pynone ≠ DirRef.jobDir 0 := by
  decide

/-- Claim C3 (code bug, evaluated at the failing input): with
`mol_relax_maker = None` and `prev_dir_mol = "prev_run"`, the molecule
static job's structure input is indeed the boxed molecule and no
relaxation job is present, but its previous-directory handle is `None` —
`prev_dir_mol` is ignored, contradicting the claim that the static job
receives it. -/
theorem C3_prev_dir_mol_ignored :
    makerJobEntriesOf
        (({ mol_relax_maker := none } : AdsorptionMaker).make
          { prev_dir_mol := some "prev_run" })
        "molecule static job"
      = some [(OutputRef.boxedMolecule, DirRef.pynone)] ∧
    makerJobEntriesOf
        (({ mol_relax_maker := none } : AdsorptionMaker).make
          { prev_dir_mol := some "prev_run" })
        "molecule relaxation job"
      = some [] ∧
    DirRef.pynone ≠ DirRef.path "prev_run" := by
  decide

/-- Claim C4 (amended): for every configuration with all five makers
present, the Flow returned by `make` contains exactly 9 Jobs, independent
of the number of adsorbate-slab candidates — the per-candidate relax/static
pairs are created dynamically during execution by the `run_adslabs_job`
node, not at assembly time. -/
theorem C4_flow_has_nine_jobs (nm : String) (a b c d e : VaspMaker)
    (args : MakeArgs) :
    flowLength
        ((AdsorptionMaker.mk nm (some a) (some b) (some c) (some d)
          (some e)).make args)
      = some 9 := rfl

/-- Claim C4 counterexample: with all five makers at their defaults the
assembled Flow has 9 Jobs, which differs from `5 + 2*K` already at `K = 0`
(an admissible candidate count per the spec's own empty-collection
contract); the assembly-time job count cannot equal `5 + 2*K` for every
`K`. -/
theorem C4_counterexample_nine_jobs :
    flowLength (({} : AdsorptionMaker).make {}) = some 9 ∧
    (9 : Nat) ≠ 5 + 2 * 0 := by
  decide

/-- Claim C5 (amended): assembly invokes no external computation, but its
side effects are not limited to building the in-memory job list — every
successful assembly also writes the diagnostic file `joblog.json` to disk
(`with open("joblog.json", "w") ...`). -/
theorem C5_assembly_writes_joblog (nm : String) (mr br : Option VaspMaker)
    (b d e : VaspMaker) (args : MakeArgs) :
    effectsOf
        ((AdsorptionMaker.mk nm mr (some b) br (some d) (some e)).make args)
      = some [Effect.fileWrite "joblog.json"] := by
  cases mr <;> cases br <;> rfl

/-- Claim C5 counterexample: a successful default assembly performs a file
write (`joblog.json`), refuting the claim that no file I/O occurs during
assembly. -/
theorem C5_counterexample_file_io :
    effectsOf (({} : AdsorptionMaker).make {})
      = some [Effect.fileWrite "joblog.json"] ∧
    (some [Effect.fileWrite "joblog.json"] : Option (List Effect))
      ≠ some [] := by
  decide

/-- Claim C6: for co-indexed candidate and static-energy sequences of equal
length, the terminal adsorption-energy calculation yields, at every index
`i`, `static_energy[i] - (slab_dft_energy + molecule_dft_energy)`. -/
theorem C6_adsorption_energy_formula {α : Type} (structs : List α)
    (es : List ℚ) (m s : ℚ) (hlen : es.length = structs.length) (i : Nat) :
    adsEnergyAt (adsorption_calculations structs es m s) i
      = (es.get? i).map fun x => x - (s + m) := by
  simp [adsorption_calculations, adsEnergyAt, hlen]

/-- Claim C6 witness, the spec's literal example: slab energy −10, molecule
energy −2, static energy of adslab 0 equal to −13.5 gives adsorption
energy −1.5. -/
theorem C6_adsorption_energy_formula_witness :
    adsEnergyAt (adsorption_calculations [()] [-(27 / 2 : ℚ)] (-2) (-10)) 0
      = some (-(3 / 2)) := by
  have h := C6_adsorption_energy_formula [()] [-(27 / 2 : ℚ)] (-2) (-10) rfl 0
  rw [h]
  norm_num

/-- Claim C7: when `bulk_relax_maker` is `None` (and assembly succeeds),
both the slab-generation and the adslab-generation jobs receive the
original `structure` argument unchanged, and no bulk relaxation job is in
the Flow. -/
theorem C7_bulk_passthrough (nm : String) (mr : Option VaspMaker)
    (b d e : VaspMaker) (args : MakeArgs) :
    slabGenEntriesOf
        ((AdsorptionMaker.mk nm mr (some b) none (some d) (some e)).make args)
      = some [(OutputRef.bulkArg, geomOf args)] ∧
    adslabsGenEntriesOf
        ((AdsorptionMaker.mk nm mr (some b) none (some d) (some e)).make args)
      = some [(OutputRef.bulkArg, OutputRef.moleculeArg, geomOf args)] ∧
    makerJobEntriesOf
        ((AdsorptionMaker.mk nm mr (some b) none (some d) (some e)).make args)
        "bulk relaxation job"
      = some [] := by
  cases mr <;> exact ⟨rfl, rfl, rfl⟩

/-- Claim C8: for an empty adsorbate-slab candidate collection the terminal
calculation returns an empty result set and does not raise. -/
theorem C8_empty_candidates_empty_result (α : Type) (m s : ℚ) :
    adsorption_calculations ([] : List α) [] m s = Except.ok [] := rfl

/-- Claim C9 (amended): the adslab-generation job consumes the original
(un-boxed, un-relaxed) `molecule` argument — not the molecule structure
handle that feeds the molecule static stage — together with the same bulk
input and the same geometry parameters as the clean-slab generation job. -/
theorem C9_adslabs_inputs (nm : String) (mr br : Option VaspMaker)
    (b d e : VaspMaker) (args : MakeArgs) :
    adslabsGenEntriesOf
        ((AdsorptionMaker.mk nm mr (some b) br (some d) (some e)).make args)
      = (slabGenEntriesOf
          ((AdsorptionMaker.mk nm mr (some b) br (some d) (some e)).make
            args)).map
          (List.map fun x => (x.1, OutputRef.moleculeArg, x.2)) := by
  cases mr <;> cases br <;> rfl

/-- Claim C9 counterexample: in the default configuration the adslab
generation job's molecule input is the raw `molecule` argument, while the
molecule static stage consumes the boxed molecule structure — two distinct
handles, refuting "the same molecule structure handle that feeds the
molecule static-energy stage". -/
theorem C9_counterexample_raw_molecule :
    adslabsGenEntriesOf (({} : AdsorptionMaker).make {})
      = some [(OutputRef.outStructure 2, OutputRef.moleculeArg, geomOf {})] ∧
    makerJobEntriesOf (({} : AdsorptionMaker).make {}) "molecule static job"
      = some [(OutputRef.boxedMolecule, DirRef.pynone)] ∧
    OutputRef.moleculeArg ≠ OutputRef.boxedMolecule := by
  decide

/-- Claim C10: whenever `mol_static_maker` or `slab_static_maker` is
`None`, `make` raises during assembly (an `AttributeError` from calling
`.make` on `None`) and never returns a Flow: the two static makers are
effectively mandatory. -/
theorem C10_static_makers_mandatory :
    (∀ (nm : String) (mr br sr ss : Option VaspMaker) (args : MakeArgs),
      assemblySucceeds ((AdsorptionMaker.mk nm mr none br sr ss).make args)
        = false) ∧
    (∀ (nm : String) (mr ms br sr : Option VaspMaker) (args : MakeArgs),
      assemblySucceeds ((AdsorptionMaker.mk nm mr ms br sr none).make args)
        = false) := by
  constructor
  · intro nm mr br sr ss args
    cases mr <;> rfl
  · intro nm mr ms br sr args
    cases mr <;> cases ms <;> cases br <;> cases sr <;> rfl

end Adsorption
